import Mathlib

/-!
Verification development for the pymakr-vsc Device Session & Synchronization
Engine.  The definitions below are shallow embeddings of the JavaScript
source:

* `waitFor`              — src/utils/misc (`waitFor`, lines 58-84)
* `connectRun`           — src/Device.js, `connect` promise executor body
                           (lines 89-112)
* `connectSyncSeg`       — src/Device.js, the synchronous segment of
                           `connect()` (lines 86-115)
* `disconnectRun`        — src/Device.js, `disconnect` (lines 117-123)
* `uploadFileRun`        — src/Device.js, `_uploadFile` (lines 151-163)
* `uploadRun`            — src/Device.js, `upload` (lines 180-195)
* `downloadProjectRun`   — src/commands/index.js, `downloadProject`
                           (lines 429-448)
* `updateConnection`     — src/Device.js, `updateConnection` (lines 46-58)
* `objToSerializedEntries`, `serializedEntriesToObj`
                         — src/utils/misc (lines 293-303)
* `onceStep`, `onceRun`  — src/utils/misc, `once` (lines 13-21)

Asynchronous JavaScript is modelled denotationally: a promise is either
`none` (never settles) or `some (t, r)` (settles at time `t` with outcome
`r`, where `r : Except String α` distinguishes resolution from rejection).
JavaScript exceptions are modelled with `Except`.
-/

/-- A model of a JavaScript promise: `none` never settles, `some (t, r)`
settles at (relative) time `t` with outcome `r` (`Except.error` models a
rejection, carrying the rejection value rendered as a string). -/
abbrev PromiseModel (α : Type) := Option (Nat × Except String α)

/-- Embedding of `waitFor(primaryPromise, timeAllowance, fallbackActionOrErr)`
from src/utils/misc for the usage exercised by Device: a numeric time
allowance and a string error fallback.  The source races the primary promise
against a timer of `timeAllowance` ms that rejects with the fallback error;
if the primary promise settles within the allowance its outcome wins,
otherwise the caller receives the fallback rejection exactly when the
allowance expires.  The result is the settle time together with the
outcome. -/
def waitFor (primaryPromise : PromiseModel α) (timeAllowance : Nat)
    (fallbackErr : String) : Nat × Except String α :=
  match primaryPromise with
  | none => (timeAllowance, .error fallbackErr)
  | some (t, r) =>
    if t ≤ timeAllowance then (t, r) else (timeAllowance, .error fallbackErr)

/-- Opaque stand-in for the board metadata record returned by
`adapter.getBoardInfo()`. -/
abbrev BoardInfo := String

/-- The mutable connection flags of a `Device` touched by the
`connect`/`disconnect` paths (src/Device.js lines 28-31, 95-96, 120-121),
together with the `info` field set from the fetched board metadata
(line 99). -/
structure DevState where
  connected : Bool
  lostConnection : Bool
  info : Option BoardInfo
deriving DecidableEq, Repr

/-- The fallback error string of the 2000 ms connect allowance
(src/Device.js line 94). -/
def connectTimeoutMsg : String := "Timed out while connecting."

/-- The fallback error string of the 10000 ms board-info allowance
(src/Device.js line 99). -/
def boardInfoTimeoutMsg : String := "timed out while getting board info"

/-- The fallback error string of the 2000 ms disconnect allowance
(src/Device.js line 119). -/
def disconnectTimeoutMsg : String := "Timed out while disconnecting."

deriving instance DecidableEq for Except

/-- Outcome of running a Device operation: the device state it leaves
behind, the time at which the operation's promise settles, and whether it
resolves (`ok`) or rejects (`error`). -/
structure OpOutcome where
  state : DevState
  settleTime : Nat
  result : Except String Unit
deriving DecidableEq, Repr

/-- Embedding of the `connect` promise executor body for the serial
protocol (src/Device.js lines 89-112).  `connectSerial` models the promise
returned by `adapter.connectSerial(address)` and `getBoardInfo` the promise
returned by `adapter.getBoardInfo()`.

The source awaits `waitFor(connectPromise, 2000, ...)`; a rejection there is
caught by the `catch` block, which logs and rejects the connecting promise
without touching the connection flags.  On success it sets
`connected = true`, `lostConnection = false`, then awaits
`waitFor(getBoardInfo(), 10000, ...)` inside the same `try`, so a board-info
failure also lands in the `catch` block and rejects — the flags set on
lines 95-96 are not reverted.  The subsequent
`activeDeviceStore.setToLastUsedOrFirstFound()` call is UI glue outside the
spec's core and is modelled as succeeding. -/
def connectRun (connectSerial : PromiseModel Unit)
    (getBoardInfo : PromiseModel BoardInfo) (s : DevState) : OpOutcome :=
  let w1 := waitFor connectSerial 2000 connectTimeoutMsg
  match w1.2 with
  | .error e => ⟨s, w1.1, .error e⟩
  | .ok _ =>
    let s1 : DevState := { s with connected := true, lostConnection := false }
    let w2 := waitFor getBoardInfo 10000 boardInfoTimeoutMsg
    match w2.2 with
    | .error e => ⟨s1, w1.1 + w2.1, .error e⟩
    | .ok info => ⟨{ s1 with info := some info }, w1.1 + w2.1, .ok ()⟩

/-- Embedding of `disconnect` (src/Device.js lines 117-123).  The method
awaits `waitFor(adapter.disconnect(), 2000, ...)` with no surrounding
try/catch: if that await throws (transport failure or allowance expiry),
the method rejects immediately and the flag updates on lines 120-121 never
execute.  Only when the transport disconnect resolves in time are
`connected` and `lostConnection` cleared. -/
def disconnectRun (transportDisconnect : PromiseModel Unit) (s : DevState) :
    OpOutcome :=
  let w := waitFor transportDisconnect 2000 disconnectTimeoutMsg
  match w.2 with
  | .error e => ⟨s, w.1, .error e⟩
  | .ok _ => ⟨{ s with connected := false, lostConnection := false }, w.1, .ok ()⟩

/-- The state observed by the synchronous segment of `connect()`:
the `connecting` flag and the number of transport connect attempts
currently in flight. -/
structure ConnFlagState where
  connecting : Bool
  inFlight : Nat
deriving DecidableEq, Repr

/-- Embedding of the synchronous segment of `connect()` (src/Device.js
lines 86-115) as one atomic step of the single-threaded event loop.

Line 87 guards on `this.connecting`; if it is set, the method returns the
stored `__connectingPromise` without starting anything (modelled by the
returned Bool being `false`).  Otherwise line 88 sets `connecting = true`,
the promise executor starts synchronously, line 93 starts a new transport
connect attempt (`adapter.connectSerial`), and line 94's `await` suspends
the executor.  Control then returns to `connect()`, whose line 113 sets
`connecting = false` — still inside the same synchronous segment, before
the transport attempt has settled.  The returned Bool records whether a new
transport connect attempt was started. -/
def connectSyncSeg (s : ConnFlagState) : ConnFlagState × Bool :=
  if s.connecting then
    (s, false)
  else
    let s1 : ConnFlagState := { s with connecting := true }
    let s2 : ConnFlagState := { s1 with inFlight := s1.inFlight + 1 }
    let s3 : ConnFlagState := { s2 with connecting := false }
    (s3, true)

/-- Claim C4: when the transport connect promise never settles, `connect()`
rejects with the timeout error exactly when the 2000 ms allowance expires,
and a device that was not connected is left not connected. -/
theorem connect_neverSettles_timesOutAt2000 (getBoardInfo : PromiseModel BoardInfo)
    (s : DevState) (h : s.connected = false) :
    connectRun none getBoardInfo s = ⟨s, 2000, .error connectTimeoutMsg⟩ ∧
    (connectRun none getBoardInfo s).state.connected = false := by
  refine ⟨rfl, ?_⟩
  simpa [connectRun, waitFor] using h

/-- Witness for C4 at a concrete disconnected device. -/
theorem connect_neverSettles_timesOutAt2000_witness :
    connectRun none none ⟨false, false, none⟩ =
      ⟨⟨false, false, none⟩, 2000, .error connectTimeoutMsg⟩ ∧
    (connectRun none none ⟨false, false, none⟩).state.connected = false :=
  connect_neverSettles_timesOutAt2000 none ⟨false, false, none⟩ rfl

/-- Helper: a promise that settles within the allowance wins the race. -/
theorem waitFor_some_of_le {α : Type} (t : Nat) (r : Except String α)
    (allowance : Nat) (m : String) (h : t ≤ allowance) :
    waitFor (some (t, r)) allowance m = (t, r) := by
  simp [waitFor, h]

/-- Counterexample to claim C2: with a transport connect that resolves
immediately and a board-info fetch that never settles, `connect()` does not
resolve successfully — it rejects with the board-info timeout error (the
`catch` block on src/Device.js lines 103-110 rejects the connecting
promise).  The device does remain `Connected`, but the claim's assertion
that `connect()` still resolves is false. -/
theorem connect_infoTimeout_rejects_counterexample :
    (connectRun (some (0, .ok ())) none ⟨false, false, none⟩).result =
      .error boardInfoTimeoutMsg ∧
    (connectRun (some (0, .ok ())) none ⟨false, false, none⟩).result ≠ .ok () ∧
    (connectRun (some (0, .ok ())) none ⟨false, false, none⟩).state.connected = true := by
  refine ⟨rfl, ?_, rfl⟩
  decide

/-- Claim C2 (amended): when the transport connect resolves within its
2000 ms allowance, `connect()` sets `connected = true` and clears
`lostConnection`, then fetches board metadata under a 10000 ms allowance;
if that fetch fails or times out, `connect()` rejects with the failure,
while the state stays `Connected` (the flags set before the fetch are not
reverted). -/
theorem connect_infoFailure_staysConnected_butRejects
    (getBoardInfo : PromiseModel BoardInfo) (s : DevState) (t : Nat) (e : String)
    (ht : t ≤ 2000)
    (hinfo : (waitFor getBoardInfo 10000 boardInfoTimeoutMsg).2 = .error e) :
    connectRun (some (t, .ok ())) getBoardInfo s =
      ⟨{ s with connected := true, lostConnection := false },
       t + (waitFor getBoardInfo 10000 boardInfoTimeoutMsg).1, .error e⟩ := by
  unfold connectRun
  rw [waitFor_some_of_le t (.ok ()) 2000 connectTimeoutMsg ht]
  dsimp only
  rw [hinfo]

/-- Witness for the amended C2 with a board-info fetch that never settles:
the device ends `Connected` yet `connect()` rejects, at time 0 + 10000,
with the board-info timeout error. -/
theorem connect_infoFailure_staysConnected_butRejects_witness :
    connectRun (some (0, .ok ())) none ⟨false, true, none⟩ =
      ⟨⟨true, false, none⟩, 0 + 10000, .error boardInfoTimeoutMsg⟩ :=
  connect_infoFailure_staysConnected_butRejects none ⟨false, true, none⟩ 0
    boardInfoTimeoutMsg (by decide) rfl

/-- Counterexample to claim C3: with a transport disconnect that never
settles, `disconnect()` rejects when the 2000 ms allowance expires and the
device does NOT end in the `Disconnected` state — `connected` is still
`true`, because src/Device.js lines 120-122 run only after the `await` on
line 119 succeeds and there is no try/catch around it. -/
theorem disconnect_timeout_staysConnected_counterexample :
    disconnectRun none ⟨true, false, none⟩ =
      ⟨⟨true, false, none⟩, 2000, .error disconnectTimeoutMsg⟩ ∧
    (disconnectRun none ⟨true, false, none⟩).state.connected ≠ false := by
  refine ⟨rfl, ?_⟩
  decide

/-- Claim C3 (amended): `disconnect()` invokes the transport disconnect
under a 2000 ms allowance; when the transport disconnect resolves within
the allowance the device ends `Disconnected` (`connected = false`,
`lostConnection` cleared), but when it fails or times out `disconnect()`
rejects with that error and the connection flags are left unchanged. -/
theorem disconnect_resolves_clearsFlags_else_rejectsUnchanged
    (transportDisconnect : PromiseModel Unit) (s : DevState) :
    (∀ t, transportDisconnect = some (t, .ok ()) → t ≤ 2000 →
        disconnectRun transportDisconnect s =
          ⟨{ s with connected := false, lostConnection := false }, t, .ok ()⟩) ∧
    (∀ t e, waitFor transportDisconnect 2000 disconnectTimeoutMsg = (t, .error e) →
        disconnectRun transportDisconnect s = ⟨s, t, .error e⟩) := by
  constructor
  · intro t hp ht
    subst hp
    unfold disconnectRun
    simp [waitFor, ht]
  · intro t e hw
    unfold disconnectRun
    rw [hw]

/-- Witness for the amended C3: a disconnect that resolves at 5 ms clears
the flags, and one that never settles leaves a connected device connected
and rejects at 2000 ms. -/
theorem disconnect_resolves_clearsFlags_else_rejectsUnchanged_witness :
    disconnectRun (some (5, .ok ())) ⟨true, true, none⟩ =
      ⟨⟨false, false, none⟩, 5, .ok ()⟩ ∧
    disconnectRun none ⟨true, false, none⟩ =
      ⟨⟨true, false, none⟩, 2000, .error disconnectTimeoutMsg⟩ :=
  ⟨(disconnect_resolves_clearsFlags_else_rejectsUnchanged (some (5, .ok ())) ⟨true, true, none⟩).1
      5 rfl (by decide),
   (disconnect_resolves_clearsFlags_else_rejectsUnchanged none ⟨true, false, none⟩).2
      2000 disconnectTimeoutMsg rfl⟩

/-- Claim C1 (the code contradicts it): starting from a device that is not
connecting and has no transport connect attempt in flight, a first call to
`connect()` starts a transport connect attempt and — because line 113 of
src/Device.js resets `connecting` to `false` in the same synchronous
segment, before the attempt settles — leaves `connecting = false`; a second
call issued while that attempt is still in flight therefore passes the
line 87 guard and starts a second, concurrent transport connect attempt. -/
theorem connect_reentry_startsSecondAttempt :
    (connectSyncSeg ⟨false, 0⟩).2 = true ∧
    (connectSyncSeg ⟨false, 0⟩).1.connecting = false ∧
    (connectSyncSeg ⟨false, 0⟩).1.inFlight = 1 ∧
    (connectSyncSeg (connectSyncSeg ⟨false, 0⟩).1).2 = true ∧
    (connectSyncSeg (connectSyncSeg ⟨false, 0⟩).1).1.inFlight = 2 := by
  decide

/-- The regular expression from src/Device.js line 160,
`"OSError: \\[Errno 17\\] EEXIST"`: with the escaped brackets it matches the
literal text anywhere in the error message. -/
def eexistText : String := "OSError: [Errno 17] EEXIST"

/-- Whether `pat` occurs as a contiguous subsequence of the second list. -/
def containsSeq (pat : List Char) : List Char → Bool
  | [] => pat.isEmpty
  | x :: xs => pat.isPrefixOf (x :: xs) || containsSeq pat xs

/-- Embedding of `err.message.match("OSError: \\[Errno 17\\] EEXIST")`
(src/Device.js line 160): `String.match` with an unanchored literal regex is
a substring test. -/
def matchesEexist (msg : String) : Bool :=
  containsSeq eexistText.toList msg.toList

/-- Outcome of one `_uploadFile` call: whether `adapter.putFile` was reached
and what the call's promise does. -/
structure UploadFileOutcome where
  putFileCalled : Bool
  result : Except String Unit
deriving DecidableEq, Repr

/-- Embedding of the error flow of `_uploadFile` (src/Device.js
lines 151-163), parameterized by the outcomes of the two transport calls it
makes.  The source computes the destination, reads the local file, then
awaits `adapter.mkdir(destinationDir)` inside a `try`; the `catch` rethrows
the mkdir error unless its message matches the already-exists pattern
(line 160).  Only when mkdir succeeded or its error was swallowed does the
method reach `adapter.putFile` (line 162), whose promise it returns. -/
def uploadFileRun (mkdirResult : Except String Unit)
    (putFileResult : Except String Unit) : UploadFileOutcome :=
  match mkdirResult with
  | .ok _ => ⟨true, putFileResult⟩
  | .error msg =>
    if matchesEexist msg then ⟨true, putFileResult⟩ else ⟨false, .error msg⟩

/-- Claim C5: an mkdir error whose message contains the already-exists text
is swallowed and the transfer proceeds to `putFile`; any other mkdir error
is rethrown and the upload of that file aborts before `putFile` is
called. -/
theorem uploadFile_mkdir_tolerance (msg : String) (putFileResult : Except String Unit) :
    (matchesEexist msg = true →
        uploadFileRun (.error msg) putFileResult = ⟨true, putFileResult⟩) ∧
    (matchesEexist msg = false →
        uploadFileRun (.error msg) putFileResult = ⟨false, .error msg⟩) := by
  constructor <;> intro h <;> simp [uploadFileRun, h]

/-- Witness for C5: a board message containing the EEXIST text is tolerated
(putFile runs), while a permission error propagates and putFile never
runs. -/
theorem uploadFile_mkdir_tolerance_witness :
    uploadFileRun (.error "OSError: [Errno 17] EEXIST") (.ok ()) = ⟨true, .ok ()⟩ ∧
    uploadFileRun (.error "OSError: [Errno 13] EACCES") (.ok ()) =
      ⟨false, .error "OSError: [Errno 13] EACCES"⟩ :=
  ⟨(uploadFile_mkdir_tolerance "OSError: [Errno 17] EEXIST" (.ok ())).1 (by decide),
   (uploadFile_mkdir_tolerance "OSError: [Errno 13] EACCES" (.ok ())).2 (by decide)⟩

/-- Outcome of the exposed `upload` operation: what the `upload()` promise
does and whether the error notification was shown. -/
structure UploadOutcome where
  result : Except String Unit
  errorShown : Bool
deriving DecidableEq, Repr

/-- Embedding of `Device.upload` (src/Device.js lines 180-195),
parameterized by the outcome of the underlying `_upload` transfer.  The
whole transfer is awaited inside a `try`; the `catch` block shows an error
message and logs the failure but does not rethrow, so the `upload()` promise
itself resolves regardless of the transfer outcome. -/
def uploadRun (transferResult : Except String Unit) : UploadOutcome :=
  match transferResult with
  | .ok _ => ⟨.ok (), false⟩
  | .error _ => ⟨.ok (), true⟩

/-- Counterexample to claim C6: a transfer failure (other than the
tolerated mkdir case) does not reject the initiating `upload()` call — the
catch block on src/Device.js lines 190-194 absorbs it and `upload()`
resolves; only a notification and a log entry record the failure. -/
theorem upload_absorbs_transferError_counterexample :
    uploadRun (.error "write failed") = ⟨.ok (), true⟩ ∧
    (uploadRun (.error "write failed")).result ≠ .error "write failed" := by
  refine ⟨rfl, ?_⟩
  decide

/-- Claim C6 (amended): for every transfer error reaching `upload`, the
initiating `upload()` call resolves successfully while the error is
surfaced through an error notification and the log — the error does not
propagate to the caller as a rejection. -/
theorem upload_resolves_and_reports (e : String) :
    uploadRun (.error e) = ⟨.ok (), true⟩ := rfl

/-- The autoConnect policy values recognised by `updateConnection`
(src/Device.js lines 49-51). -/
inductive AutoConnect
  | always
  | lastState
  | onLostConnection
  | never
deriving DecidableEq, Repr

/-- The record persisted per device by `saveState`
(src/Device.js line 136: `cherryPick(this, ["connected", "name"])`). -/
structure PersistedDeviceState where
  connected : Bool
  name : String
deriving DecidableEq, Repr

/-- The device flags read and written by `updateConnection`
(src/Device.js lines 46-58). -/
structure UpdState where
  online : Bool
  connected : Bool
  lostConnection : Bool
deriving DecidableEq, Repr

/-- Embedding of `this.loadState().connected` (src/Device.js line 50):
`loadState` returns the persisted record, or `{}` when the key is absent
(line 142, `state || {}`), in which case `.connected` is undefined, i.e.
falsy. -/
def loadStateConnected (persisted : Option PersistedDeviceState) : Bool :=
  match persisted with
  | some st => st.connected
  | none => false

/-- Embedding of `updateConnection` (src/Device.js lines 46-58).
`connectFn` stands for `this.connect()` and the returned Nat counts how many
times it was invoked.  The effective policy is the device-level autoConnect
setting, falling back to the global setting when the former is undefined
(line 48, JavaScript `||`).  When the device is online and not connected,
`connect()` is invoked exactly when one of `shouldConnect`, `shouldResume`,
`shouldReconnect` holds; otherwise the device is marked disconnected,
recording a lost connection if it had been connected. -/
def updateConnection (connectFn : UpdState → UpdState)
    (deviceAutoConnect : Option AutoConnect) (globalAutoConnect : AutoConnect)
    (persisted : Option PersistedDeviceState) (s : UpdState) : UpdState × Nat :=
  if s.online && !s.connected then
    let autoConnect := deviceAutoConnect.getD globalAutoConnect
    let shouldConnect := autoConnect == AutoConnect.always
    let shouldResume :=
      autoConnect == AutoConnect.lastState && loadStateConnected persisted
    let shouldReconnect :=
      autoConnect == AutoConnect.onLostConnection && s.lostConnection
    if shouldConnect || shouldResume || shouldReconnect then (connectFn s, 1)
    else (s, 0)
  else
    ({ s with lostConnection := s.lostConnection || s.connected,
              connected := false }, 0)

/-- Claim C8: with effective autoConnect policy `lastState`, a device that
is online and not connected invokes `connect()` exactly once when the
persisted record has `connected = true`, and does not invoke it when the
record has `connected = false` or is absent. -/
theorem updateConnection_lastState (connectFn : UpdState → UpdState)
    (deviceAutoConnect : Option AutoConnect) (globalAutoConnect : AutoConnect)
    (persisted : Option PersistedDeviceState) (s : UpdState)
    (hpolicy : deviceAutoConnect.getD globalAutoConnect = AutoConnect.lastState)
    (honline : s.online = true) (hconn : s.connected = false) :
    (updateConnection connectFn deviceAutoConnect globalAutoConnect persisted s).2 =
      if loadStateConnected persisted then 1 else 0 := by
  unfold updateConnection
  rw [honline, hconn, hpolicy]
  cases h : loadStateConnected persisted <;> simp [h]

/-- Witness for C8: with a persisted `{connected: true}` record the device
connects once; with `{connected: false}` and with no record it does not. -/
theorem updateConnection_lastState_witness :
    (updateConnection id (some .lastState) .never
        (some ⟨true, "dev"⟩) ⟨true, false, false⟩).2 = 1 ∧
    (updateConnection id (some .lastState) .never
        (some ⟨false, "dev"⟩) ⟨true, false, false⟩).2 = 0 ∧
    (updateConnection id (some .lastState) .never
        none ⟨true, false, false⟩).2 = 0 :=
  ⟨updateConnection_lastState id (some .lastState) .never (some ⟨true, "dev"⟩)
      ⟨true, false, false⟩ rfl rfl rfl,
   updateConnection_lastState id (some .lastState) .never (some ⟨false, "dev"⟩)
      ⟨true, false, false⟩ rfl rfl rfl,
   updateConnection_lastState id (some .lastState) .never none
      ⟨true, false, false⟩ rfl rfl rfl⟩

/-- One entry of the recursive remote listing returned by
`adapter.listFiles("", { recursive: true })` (src/commands/index.js
line 430). -/
structure RemoteEntry where
  filename : String
  isDir : Bool
deriving DecidableEq, Repr

/-- A listing entry extended with its computed local destination
(src/commands/index.js lines 431-434). -/
structure DlEntry where
  filename : String
  destination : String
  isDir : Bool
deriving DecidableEq, Repr

/-- Embedding of `fad.filename.replace(/^\/flash/, "")`
(src/commands/index.js line 433): the anchored literal regex removes one
leading `/flash` when present.  Implemented over the character list so the
definition evaluates by kernel reduction. -/
def stripFlashPrefix (s : String) : String :=
  if "/flash".toList.isPrefixOf s.toList then String.mk (s.toList.drop 6) else s

/-- The destination computation of src/commands/index.js lines 431-434:
`treeItem.project.folder + fad.filename.replace(/^\/flash/, "")`. -/
def toDlEntry (folder : String) (fad : RemoteEntry) : DlEntry :=
  ⟨fad.filename, folder ++ stripFlashPrefix fad.filename, fad.isDir⟩

/-- The `files` list of src/commands/index.js line 435:
entries that are not directories, with destinations attached. -/
def dlFiles (folder : String) (entries : List RemoteEntry) : List DlEntry :=
  (entries.map (toDlEntry folder)).filter (fun f => !f.isDir)

/-- The `dirs` list of src/commands/index.js line 436. -/
def dlDirs (folder : String) (entries : List RemoteEntry) : List DlEntry :=
  (entries.map (toDlEntry folder)).filter (fun f => f.isDir)

/-- Observable events of a `downloadProject` run: a local `mkdirSync`, a
remote `getFile` fetch, the issuing of a `writeFile` promise, and the final
`Promise.all` await of all issued writes. -/
inductive DlEvent
  | mkdirLocal (path : String)
  | getFile (path : String)
  | issueWrite (dest : String)
  | awaitAll
deriving DecidableEq, Repr

/-- Whether an event is a local directory creation. -/
def isMkdirEvent : DlEvent → Bool
  | .mkdirLocal _ => true
  | _ => false

/-- Whether an event is the issuing of a file write. -/
def isWriteEvent : DlEvent → Bool
  | .issueWrite _ => true
  | _ => false

@[simp] theorem isMkdirEvent_mkdirLocal (p : String) :
    isMkdirEvent (.mkdirLocal p) = true := rfl

@[simp] theorem isMkdirEvent_getFile (p : String) :
    isMkdirEvent (.getFile p) = false := rfl

@[simp] theorem isMkdirEvent_issueWrite (p : String) :
    isMkdirEvent (.issueWrite p) = false := rfl

@[simp] theorem isMkdirEvent_awaitAll : isMkdirEvent .awaitAll = false := rfl

@[simp] theorem isWriteEvent_mkdirLocal (p : String) :
    isWriteEvent (.mkdirLocal p) = false := rfl

@[simp] theorem isWriteEvent_getFile (p : String) :
    isWriteEvent (.getFile p) = false := rfl

@[simp] theorem isWriteEvent_issueWrite (p : String) :
    isWriteEvent (.issueWrite p) = true := rfl

@[simp] theorem isWriteEvent_awaitAll : isWriteEvent .awaitAll = false := rfl

/-- The events of the file loop of src/commands/index.js lines 442-446: for
each file, `getFile` is awaited and then a `writeFile` promise is pushed
(issued) without being awaited individually. -/
def fileEvents : List DlEntry → List DlEvent
  | [] => []
  | f :: rest => .getFile f.filename :: .issueWrite f.destination :: fileEvents rest

/-- The settlement of `Promise.all(writePromises)` (src/commands/index.js
line 447): it resolves exactly when every issued write resolved, and
rejects with a failing write's error otherwise (deterministically modelled
as the first failing write in list order). -/
def awaitAllWrites (writeResult : String → Except String Unit) :
    List DlEntry → Except String Unit
  | [] => .ok ()
  | f :: rest =>
    match writeResult f.destination with
    | .error e => .error e
    | .ok _ => awaitAllWrites writeResult rest

/-- The time at which `Promise.all(writePromises)` settles when every write
succeeds: the latest completion time among the issued writes. -/
def maxWriteTime (writeTime : String → Nat) : List DlEntry → Nat
  | [] => 0
  | f :: rest => max (writeTime f.destination) (maxWriteTime writeTime rest)

/-- Observable outcome of one `downloadProject` run. -/
structure DownloadOutcome where
  events : List DlEvent
  result : Except String Unit
  resolveTime : Nat

/-- Embedding of `downloadProject` (src/commands/index.js lines 429-448).
The remote tree is listed recursively, each entry gets a local destination,
entries are split into files and directories, every directory is created
locally (`dirs.forEach(mkdirSync)`), and then the file loop fetches each
file and issues its write; finally all issued writes are awaited at once.
`writeResult` and `writeTime` model each local write's outcome and
completion time. -/
def downloadProjectRun (folder : String) (entries : List RemoteEntry)
    (writeResult : String → Except String Unit) (writeTime : String → Nat) :
    DownloadOutcome :=
  { events := (dlDirs folder entries).map (fun d => .mkdirLocal d.destination)
      ++ fileEvents (dlFiles folder entries) ++ [.awaitAll]
    result := awaitAllWrites writeResult (dlFiles folder entries)
    resolveTime := maxWriteTime writeTime (dlFiles folder entries) }

/-- Helper: mkdir events filtered down to mkdir-or-write events are
themselves. -/
theorem mkdirEvents_filter_or (ds : List DlEntry) :
    ((ds.map fun d => DlEvent.mkdirLocal d.destination).filter
        fun e => isMkdirEvent e || isWriteEvent e)
      = ds.map fun d => DlEvent.mkdirLocal d.destination := by
  induction ds with
  | nil => rfl
  | cons d rest ih => simp [ih]

/-- Helper: mkdir events contain no write events. -/
theorem mkdirEvents_filter_write (ds : List DlEntry) :
    ((ds.map fun d => DlEvent.mkdirLocal d.destination).filter isWriteEvent) = [] := by
  induction ds with
  | nil => rfl
  | cons d rest ih => simp [ih]

/-- Helper: mkdir events filtered to mkdir events are themselves. -/
theorem mkdirEvents_filter_mkdir (ds : List DlEntry) :
    ((ds.map fun d => DlEvent.mkdirLocal d.destination).filter isMkdirEvent)
      = ds.map fun d => DlEvent.mkdirLocal d.destination := by
  induction ds with
  | nil => rfl
  | cons d rest ih => simp [ih]

/-- Helper: the file loop's events filtered to mkdir-or-write events are
exactly its issued writes. -/
theorem fileEvents_filter_or (fs : List DlEntry) :
    ((fileEvents fs).filter fun e => isMkdirEvent e || isWriteEvent e)
      = fs.map fun f => DlEvent.issueWrite f.destination := by
  induction fs with
  | nil => rfl
  | cons f rest ih => simp [fileEvents, ih]

/-- Helper: the file loop creates no local directories. -/
theorem fileEvents_filter_mkdir (fs : List DlEntry) :
    ((fileEvents fs).filter isMkdirEvent) = [] := by
  induction fs with
  | nil => rfl
  | cons f rest ih => simp [fileEvents, ih]

/-- Helper: the file loop's write events, in order. -/
theorem fileEvents_filter_write (fs : List DlEntry) :
    ((fileEvents fs).filter isWriteEvent)
      = fs.map fun f => DlEvent.issueWrite f.destination := by
  induction fs with
  | nil => rfl
  | cons f rest ih => simp [fileEvents, ih]

/-- Helper: `Promise.all` resolves exactly when every issued write
resolves. -/
theorem awaitAllWrites_ok_iff (writeResult : String → Except String Unit)
    (fs : List DlEntry) :
    awaitAllWrites writeResult fs = .ok () ↔
      ∀ f ∈ fs, writeResult f.destination = .ok () := by
  induction fs with
  | nil => simp [awaitAllWrites]
  | cons f rest ih =>
    cases h : writeResult f.destination with
    | error e => simp [awaitAllWrites, h]
    | ok u => cases u; simp [awaitAllWrites, h, ih]

/-- Helper: every write completes no later than the maximal write time. -/
theorem le_maxWriteTime (writeTime : String → Nat) (fs : List DlEntry) :
    ∀ f ∈ fs, writeTime f.destination ≤ maxWriteTime writeTime fs := by
  induction fs with
  | nil => intro f hf; cases hf
  | cons g rest ih =>
    intro f hf
    cases hf with
    | head => exact le_max_left _ _
    | tail _ hmem => exact le_trans (ih f hmem) (le_max_right _ _)

/-- Helper: a list ending in a single appended element has that element as
its last. -/
theorem getLastQ_append_single (l : List α) (a : α) :
    (l ++ [a]).getLast? = some a := by
  induction l with
  | nil => rfl
  | cons x xs ih =>
    cases xs with
    | nil => rfl
    | cons y ys => simpa using ih

/-- Claim C7: in every `downloadProject` run, all local directory creations
precede every issued file write (among mkdir/write events, the mkdirs form
a prefix), the run's single `Promise.all` await is the final event, the
operation resolves exactly when every file write resolved (one failing
write fails the whole operation), and the operation settles no earlier than
the completion of each issued write. -/
theorem downloadProject_ordering_and_allOrNothing (folder : String)
    (entries : List RemoteEntry) (writeResult : String → Except String Unit)
    (writeTime : String → Nat) :
    ((downloadProjectRun folder entries writeResult writeTime).events.filter
        fun e => isMkdirEvent e || isWriteEvent e)
      = ((downloadProjectRun folder entries writeResult writeTime).events.filter
          isMkdirEvent)
        ++ ((downloadProjectRun folder entries writeResult writeTime).events.filter
          isWriteEvent) ∧
    (downloadProjectRun folder entries writeResult writeTime).events.getLast?
      = some .awaitAll ∧
    ((downloadProjectRun folder entries writeResult writeTime).result = .ok () ↔
      ∀ f ∈ dlFiles folder entries, writeResult f.destination = .ok ()) ∧
    (∀ f ∈ dlFiles folder entries,
      writeTime f.destination ≤
        (downloadProjectRun folder entries writeResult writeTime).resolveTime) := by
  refine ⟨?_, ?_, ?_, ?_⟩
  · simp only [downloadProjectRun, List.filter_append,
      mkdirEvents_filter_or, mkdirEvents_filter_mkdir, mkdirEvents_filter_write,
      fileEvents_filter_or, fileEvents_filter_mkdir, fileEvents_filter_write]
    simp
  · simp only [downloadProjectRun]
    exact getLastQ_append_single _ _
  · exact awaitAllWrites_ok_iff writeResult (dlFiles folder entries)
  · exact le_maxWriteTime writeTime (dlFiles folder entries)

/-- Witness for C7 on a concrete listing with one directory and two files,
one of which is the file whose write time is bounded by the settle time. -/
theorem downloadProject_ordering_and_allOrNothing_witness :
    (⟨"/flash/main.py", "/proj/main.py", false⟩ : DlEntry) ∈
        dlFiles "/proj" [⟨"/flash/lib", true⟩, ⟨"/flash/main.py", false⟩] ∧
    (fun _ : String => 7) "/proj/main.py" ≤
      (downloadProjectRun "/proj" [⟨"/flash/lib", true⟩, ⟨"/flash/main.py", false⟩]
        (fun _ => .ok ()) (fun _ => 7)).resolveTime :=
  ⟨by decide,
   (downloadProject_ordering_and_allOrNothing "/proj"
      [⟨"/flash/lib", true⟩, ⟨"/flash/main.py", false⟩]
      (fun _ => .ok ()) (fun _ => 7)).2.2.2
     ⟨"/flash/main.py", "/proj/main.py", false⟩ (by decide)⟩

/-- A JavaScript string, modelled as its character list so that the
`split`/`join` algebra is fully computable. -/
abbrev JsStr := List Char

/-- Embedding of JavaScript `s.split(sep)` for a single-character
separator, as used by `serializedEntriesToObj` (`n.split("=")`): splitting
an empty string yields `[""]`, a separator at the end yields a trailing
empty piece, and so on. -/
def splitOnChar (c : Char) : JsStr → List JsStr
  | [] => [[]]
  | x :: xs =>
    if x = c then [] :: splitOnChar c xs
    else
      match splitOnChar c xs with
      | [] => [[x]]
      | y :: ys => (x :: y) :: ys

/-- Embedding of `objToSerializedEntries` (src/utils/misc lines 293-297):
`Object.entries(obj).map((entr) => entr.join("="))`.  A flat object with
string values is modelled as an association list in insertion order; the
join of a two-element entry `[key, value]` with `"="` is
`key ++ "=" ++ value`. -/
def objToSerializedEntries (obj : List (JsStr × JsStr)) : List JsStr :=
  obj.map fun entr => entr.1 ++ '=' :: entr.2

/-- The pair `Object.fromEntries` builds from one split result: the key is
element 0 and the value element 1, which is `undefined` (modelled `none`)
when the split produced fewer than two pieces. -/
def entryFromParts : List JsStr → JsStr × Option JsStr
  | [] => ([], none)
  | [a] => (a, none)
  | a :: b :: _ => (a, some b)

/-- Embedding of `serializedEntriesToObj` (src/utils/misc lines 299-303):
`Object.fromEntries(serializedEntries.map((n) => n.split("=")))`, with the
resulting object modelled as an association list whose values are
JavaScript values (`none` = `undefined`). -/
def serializedEntriesToObj (serializedEntries : List JsStr) :
    List (JsStr × Option JsStr) :=
  serializedEntries.map fun n => entryFromParts (splitOnChar '=' n)

/-- Helper: splitting a separator-free string yields the string alone. -/
theorem splitOnChar_of_not_mem (c : Char) (v : JsStr) (h : c ∉ v) :
    splitOnChar c v = [v] := by
  induction v with
  | nil => rfl
  | cons x xs ih =>
    have hx : ¬x = c := fun hxc => h (hxc ▸ List.mem_cons_self x xs)
    have hxs : c ∉ xs := fun hm => h (List.mem_cons_of_mem x hm)
    simp only [splitOnChar, if_neg hx, ih hxs]

/-- Helper: splitting at the first separator after a separator-free prefix
peels off that prefix. -/
theorem splitOnChar_append_sep (c : Char) (k v : JsStr) (h : c ∉ k) :
    splitOnChar c (k ++ c :: v) = k :: splitOnChar c v := by
  induction k with
  | nil => simp [splitOnChar]
  | cons x xs ih =>
    have hx : ¬x = c := fun hxc => h (hxc ▸ List.mem_cons_self x xs)
    have hxs : c ∉ xs := fun hm => h (List.mem_cons_of_mem x hm)
    simp only [List.cons_append, splitOnChar, if_neg hx, List.append_eq, ih hxs]

/-- Helper: a serialized `key=value` entry splits back into exactly the key
and the value when neither contains the separator. -/
theorem splitOnChar_roundTrip (c : Char) (k v : JsStr) (hk : c ∉ k) (hv : c ∉ v) :
    splitOnChar c (k ++ c :: v) = [k, v] := by
  rw [splitOnChar_append_sep c k v hk, splitOnChar_of_not_mem c v hv]

/-- Claim C9: for every flat object whose keys and string values contain no
`=` character, `serializedEntriesToObj (objToSerializedEntries obj)`
rebuilds exactly the entries of `obj` (each value defined, none collapsed
to `undefined`): the two helpers form a round trip. -/
theorem serializedEntries_roundTrip (obj : List (JsStr × JsStr))
    (h : ∀ p ∈ obj, ('=' : Char) ∉ p.1 ∧ ('=' : Char) ∉ p.2) :
    serializedEntriesToObj (objToSerializedEntries obj) =
      obj.map fun p => (p.1, some p.2) := by
  induction obj with
  | nil => rfl
  | cons p rest ih =>
    have hp := h p (List.mem_cons_self p rest)
    have hrest : ∀ q ∈ rest, ('=' : Char) ∉ q.1 ∧ ('=' : Char) ∉ q.2 :=
      fun q hq => h q (List.mem_cons_of_mem p hq)
    simp only [objToSerializedEntries, serializedEntriesToObj, List.map_cons,
      List.map_map] at ih ⊢
    rw [splitOnChar_roundTrip '=' p.1 p.2 hp.1 hp.2]
    exact congrArg _ (ih hrest)

/-- Witness for C9 on the object `{foo: "FOO", bar: "BAR"}`. -/
theorem serializedEntries_roundTrip_witness :
    serializedEntriesToObj (objToSerializedEntries
        [("foo".toList, "FOO".toList), ("bar".toList, "BAR".toList)]) =
      [("foo".toList, some "FOO".toList), ("bar".toList, some "BAR".toList)] :=
  serializedEntries_roundTrip
    [("foo".toList, "FOO".toList), ("bar".toList, "BAR".toList)]
    (by decide)

/-- The closure state of a wrapper produced by `once` (src/utils/misc
lines 13-21): the `expired` flag and the captured `result`, which is
`undefined` (`none`) until the wrapped function has returned. -/
structure OnceState (β : Type) where
  expired : Bool
  result : Option β
deriving DecidableEq, Repr

/-- The closure state right after `once(fn)` returns. -/
def onceFresh {β : Type} : OnceState β := ⟨false, none⟩

/-- Embedding of one call to the wrapper returned by `once(fn)`
(src/utils/misc lines 16-20), with `fn` modelled as a deterministic
function from the call argument to a normal return or a thrown exception.
Returns the new closure state, the wrapper call's outcome (the stored
result — possibly `undefined` — or the propagated exception), and the
number of times `fn` was invoked during the call.

When `expired` is still false the wrapper invokes `fn`; if `fn` throws,
the exception propagates before the `expired = true` statement runs, so
the closure state is unchanged.  When `expired` is already true the
wrapper returns the stored result without invoking `fn`. -/
def onceStep {α β : Type} (fn : α → Except String β) (s : OnceState β)
    (a : α) : OnceState β × Except String (Option β) × Nat :=
  if s.expired then
    (⟨true, s.result⟩, .ok s.result, 0)
  else
    match fn a with
    | .ok r => (⟨true, some r⟩, .ok (some r), 1)
    | .error e => (s, .error e, 1)

/-- A sequence of calls to the wrapper returned by `once(fn)`: the list of
each call's outcome and the total number of invocations of `fn`. -/
def onceRun {α β : Type} (fn : α → Except String β) (s : OnceState β) :
    List α → List (Except String (Option β)) × Nat
  | [] => ([], 0)
  | a :: as =>
    let step := onceStep fn s a
    let rest := onceRun fn step.1 as
    (step.2.1 :: rest.1, step.2.2 + rest.2)

/-- Counterexample to claim C10: for a wrapped function that throws, the
wrapper invokes it again on the next call — after two calls the wrapped
function has been invoked twice, because `expired = true` (src/utils/misc
line 18) is never reached when line 17 throws.  The claim's "invokes fn at
most one time" is false for this fn. -/
theorem once_reinvokes_throwing_fn_counterexample :
    (onceRun (fun _ : Unit => (.error "boom" : Except String Nat)) onceFresh
        [(), ()]).2 = 2 ∧
    ¬(onceRun (fun _ : Unit => (.error "boom" : Except String Nat)) onceFresh
        [(), ()]).2 ≤ 1 := by
  refine ⟨rfl, ?_⟩
  decide

/-- Helper: once the wrapper has a stored result, every further call
returns it without invoking the wrapped function. -/
theorem onceRun_expired {α β : Type} (fn : α → Except String β) (r : β)
    (as : List α) :
    onceRun fn ⟨true, some r⟩ as = (as.map fun _ => .ok (some r), 0) := by
  induction as with
  | nil => rfl
  | cons a rest ih => simp [onceRun, onceStep, ih]

/-- Claim C10 (amended): for every function whose first invocation returns
normally, the wrapper returned by `once(fn)` invokes it exactly once: the
first call invokes it with the supplied argument and returns its result,
and every subsequent call returns that same result without invoking it
again.  (If the first invocation throws, the exception propagates and the
wrapper will invoke the function again on the next call.) -/
theorem once_invokes_fn_once {α β : Type} (fn : α → Except String β)
    (a : α) (as : List α) (r : β) (h : fn a = .ok r) :
    onceRun fn onceFresh (a :: as) =
      (.ok (some r) :: (as.map fun _ => .ok (some r)), 1) := by
  simp [onceRun, onceStep, onceFresh, h, onceRun_expired]

/-- Witness for the amended C10: the successor function wrapped by `once`
is invoked exactly once over three calls, with every call returning the
first result. -/
theorem once_invokes_fn_once_witness :
    onceRun (fun n : Nat => (.ok (n + 1) : Except String Nat)) onceFresh
        [1, 2, 3] =
      ([.ok (some 2), .ok (some 2), .ok (some 2)], 1) :=
  once_invokes_fn_once (fun n : Nat => (.ok (n + 1) : Except String Nat))
    1 [2, 3] 2 rfl
